import Mathlib

/-!
Verification of the `catalyst` Mandarin photo-caption backend.

The repository contains several near-duplicate Express server revisions.
The two that the checked claims draw on are modelled here:

* `src/server.js` — the OpenRouter revision: `makeApiRequestWithFallback`
  with per-status/per-code error categorisation, `validateCaptions`,
  the markdown-fence / brace cleanup preceding `JSON.parse`, the SHA-256
  cache key, and the 24-hour cache-expiry guard in `analyzeImage`.
* `src/unnamed/part_002` — the OpenAI "optimized" revision: the
  `/api/analyze-image` handler with structured-text caption extraction and
  the comprehensive canned-caption fallback system, its own
  `validateCaptions`, `generatePinyinFallback`, `generateFallbackCaptions`
  (MD5-selected canned captions), and the `/api/clear-cache` handler.

JavaScript strings are modelled as `List Char` (`JStr`); buffers as
`List Nat` (bytes); maps as association lists in insertion order.
Console logging and file persistence (`saveUsageStats`) are I/O-only and
carry no data dependency, so they are omitted from the functional model.
-/

/-- A JavaScript string, modelled as its list of characters. -/
abbrev JStr := List Char

/-- A JavaScript byte buffer. -/
abbrev JBuf := List Nat

/-- Membership of the JavaScript `\s` character class (WhiteSpace and
LineTerminator), as used by `String.prototype.trim` and by `\s` in the
regexes of the source. -/
def jsWs (c : Char) : Bool :=
  c = ' ' || c = '\t' || c = '\n' || c = '\x0b' || c = '\x0c' || c = '\r' ||
  c.toNat = 0xA0 || c.toNat = 0x1680 ||
  (0x2000 ≤ c.toNat && c.toNat ≤ 0x200A) ||
  c.toNat = 0x2028 || c.toNat = 0x2029 || c.toNat = 0x202F ||
  c.toNat = 0x205F || c.toNat = 0x3000 || c.toNat = 0xFEFF

/-- A JavaScript LineTerminator character (what `.` in a regex refuses to
match). -/
def lineTerm (c : Char) : Bool :=
  c = '\n' || c = '\r' || c.toNat = 0x2028 || c.toNat = 0x2029

/-- JavaScript `String.prototype.trim`. -/
def jsTrim (s : JStr) : JStr :=
  ((s.dropWhile jsWs).reverse.dropWhile jsWs).reverse

/-- Index of the first occurrence of `pat` in `s` (JavaScript
`String.prototype.indexOf`, as `Option` instead of `-1`). -/
def firstOccIdx (pat : JStr) : JStr → Option Nat
  | [] => if pat.isEmpty then some 0 else none
  | c :: rest =>
    if pat.isPrefixOf (c :: rest) then some 0
    else (firstOccIdx pat rest).map (· + 1)

/-- JavaScript `String.prototype.includes`. -/
def jsContains (s pat : JStr) : Bool := (firstOccIdx pat s).isSome

/-- The text after the first occurrence of `pat` (the whole of `s` when
`pat` does not occur). -/
def afterFirst (pat s : JStr) : JStr :=
  match firstOccIdx pat s with
  | some i => s.drop (i + pat.length)
  | none => s

/-- The text before the first occurrence of `pat` (the whole of `s` when
`pat` does not occur). -/
def upToFirst (pat s : JStr) : JStr :=
  match firstOccIdx pat s with
  | some i => s.take i
  | none => s

/-- Fuelled worker for `jsSplit`. -/
def jsSplitAux (sep : JStr) : Nat → JStr → List JStr
  | 0, s => [s]
  | fuel + 1, s =>
    match firstOccIdx sep s with
    | none => [s]
    | some i => s.take i :: jsSplitAux sep fuel (s.drop (i + sep.length))

/-- JavaScript `String.prototype.split` with a non-empty string separator:
successive non-overlapping occurrences of `sep` cut `s` into segments. -/
def jsSplit (sep s : JStr) : List JStr := jsSplitAux sep (s.length + 1) s

/-- JavaScript `indexOf` for a single character. -/
def jsIndexOfChar (c : Char) : JStr → Option Nat
  | [] => none
  | d :: rest => if d = c then some 0 else (jsIndexOfChar c rest).map (· + 1)

/-- JavaScript `lastIndexOf` for a single character. -/
def jsLastIndexOfChar (c : Char) (s : JStr) : Option Nat :=
  (jsIndexOfChar c s.reverse).map (fun k => s.length - 1 - k)

/-- JavaScript `substring(a, b)` (with `a ≤ b` in every use modelled). -/
def jsSubstring (a b : Nat) (s : JStr) : JStr := (s.drop a).take (b - a)

theorem firstOccIdx_isPrefixOf {pat s : JStr} {i : Nat}
    (h : firstOccIdx pat s = some i) : pat.isPrefixOf (s.drop i) := by
  induction s generalizing i with
  | nil =>
    unfold firstOccIdx at h
    by_cases hp : pat.isEmpty
    · simp [hp] at h
      subst h
      simp [List.isEmpty_iff.mp hp, List.isPrefixOf]
    · simp [hp] at h
  | cons c rest ih =>
    unfold firstOccIdx at h
    by_cases hp : pat.isPrefixOf (c :: rest)
    · simp [hp] at h
      subst h
      simpa using hp
    · simp [hp] at h
      obtain ⟨j, hj, rfl⟩ := h
      simpa using ih hj

theorem firstOccIdx_lt_length {pat s : JStr} {i : Nat}
    (hne : pat ≠ []) (h : firstOccIdx pat s = some i) : i < s.length := by
  have hpre := firstOccIdx_isPrefixOf h
  rw [List.isPrefixOf_iff_prefix] at hpre
  by_contra hlt
  push_neg at hlt
  rw [List.drop_eq_nil_of_le hlt] at hpre
  exact hne (List.prefix_nil.mp hpre)

theorem firstOccIdx_bound {pat s : JStr} {i : Nat}
    (hne : pat ≠ []) (h : firstOccIdx pat s = some i) :
    s.length - (i + pat.length) < s.length := by
  have hi := firstOccIdx_lt_length hne h
  have : 1 ≤ pat.length := List.length_pos.mpr hne
  omega

/-- The fuel of `jsSplitAux` is irrelevant once it exceeds the length of the
string being split (for a non-empty separator). -/
theorem jsSplitAux_fuel_irrel {sep : JStr} (hne : sep ≠ []) :
    ∀ f g s, s.length < f → s.length < g →
      jsSplitAux sep f s = jsSplitAux sep g s := by
  intro f
  induction f with
  | zero => intro g s hf _; omega
  | succ f ih =>
    intro g s hf hg
    match g, hg with
    | g + 1, hg =>
      show jsSplitAux sep (f + 1) s = jsSplitAux sep (g + 1) s
      unfold jsSplitAux
      match hocc : firstOccIdx sep s with
      | none => rfl
      | some i =>
        have hrest := firstOccIdx_bound hne hocc
        have h1 : (s.drop (i + sep.length)).length < f := by
          rw [List.length_drop]; omega
        have h2 : (s.drop (i + sep.length)).length < g := by
          rw [List.length_drop]; omega
        simp only []
        rw [ih g (s.drop (i + sep.length)) h1 h2]

/-- Unfolding equation of `jsSplit` at an occurrence of the separator. -/
theorem jsSplit_cons {sep s : JStr} {i : Nat} (hne : sep ≠ [])
    (h : firstOccIdx sep s = some i) :
    jsSplit sep s = s.take i :: jsSplit sep (s.drop (i + sep.length)) := by
  unfold jsSplit
  have hlen : s.length - (i + sep.length) < s.length := firstOccIdx_bound hne h
  have step : jsSplitAux sep (s.length + 1) s
      = s.take i :: jsSplitAux sep s.length (s.drop (i + sep.length)) := by
    simp only [jsSplitAux, h]
  rw [step]
  congr 1
  apply jsSplitAux_fuel_irrel hne
  · rw [List.length_drop]; omega
  · rw [List.length_drop]; omega

theorem jsSplit_nil {sep s : JStr} (h : firstOccIdx sep s = none) :
    jsSplit sep s = [s] := by
  unfold jsSplit jsSplitAux
  rw [h]

/-! ## Hashing

`crypto.createHash('sha256').update(buf).digest('hex')` backs the image
cache key (`generateImageHash`, identical in `src/server.js` and
`src/unnamed/part_002`), and `crypto.createHash('md5')` selects the canned
fallback captions in `generateFallbackCaptions` (part_002 only). Both are
embedded as executable FIPS-style reference implementations over `Nat`
with explicit reduction modulo `2 ^ 32`. -/

/-- Reduction of a natural number to a 32-bit machine word. -/
def w32 (n : Nat) : Nat := n % 4294967296

/-- Rotate a 32-bit word right by `k` bits. -/
def rotr32 (k n : Nat) : Nat := w32 ((n >>> k) ||| (n <<< (32 - k)))

/-- Rotate a 32-bit word left by `k` bits. -/
def rotl32 (k n : Nat) : Nat := w32 ((n <<< k) ||| (n >>> (32 - k)))

/-- Big-endian bytes of a 32-bit word. -/
def be32 (n : Nat) : List Nat :=
  [n / 16777216 % 256, n / 65536 % 256, n / 256 % 256, n % 256]

/-- Little-endian bytes of a 32-bit word. -/
def le32 (n : Nat) : List Nat :=
  [n % 256, n / 256 % 256, n / 65536 % 256, n / 16777216 % 256]

/-- Big-endian bytes of a 64-bit word. -/
def be64 (n : Nat) : List Nat := be32 (n / 4294967296) ++ be32 n

/-- Little-endian bytes of a 64-bit word. -/
def le64 (n : Nat) : List Nat := le32 n ++ le32 (n / 4294967296)

/-- One big-endian 32-bit word from the first four of a byte list. -/
def word32BE (l : List Nat) : Nat :=
  (l.getD 0 0) * 16777216 + (l.getD 1 0) * 65536 + (l.getD 2 0) * 256 + l.getD 3 0

/-- One little-endian 32-bit word from the first four of a byte list. -/
def word32LE (l : List Nat) : Nat :=
  (l.getD 3 0) * 16777216 + (l.getD 2 0) * 65536 + (l.getD 1 0) * 256 + l.getD 0 0

/-- Fuelled grouping of a byte list into the given block size. -/
def groupBytesAux (blk : Nat) : Nat → List Nat → List (List Nat)
  | 0, _ => []
  | _, [] => []
  | fuel + 1, l => l.take blk :: groupBytesAux blk fuel (l.drop blk)

/-- Group a byte list into blocks of `blk` bytes. -/
def groupBytes (blk : Nat) (l : List Nat) : List (List Nat) :=
  groupBytesAux blk (l.length + 1) l

/-- Merkle–Damgård padding shared by MD5 and SHA-256: a `0x80` byte, zeros
to 56 mod 64, then the bit length on eight bytes. -/
def mdPad (lenBytes : Nat → List Nat) (msg : List Nat) : List Nat :=
  msg ++ 128 :: List.replicate ((64 + 56 - (msg.length + 1) % 64) % 64) 0
      ++ lenBytes (msg.length * 8)

/-- The SHA-256 chaining state. -/
structure Sha256St where
  h0 : Nat
  h1 : Nat
  h2 : Nat
  h3 : Nat
  h4 : Nat
  h5 : Nat
  h6 : Nat
  h7 : Nat

/-- SHA-256 initial hash values (FIPS 180-4). -/
def sha256Init : Sha256St :=
  ⟨1779033703, 3144134277, 1013904242, 2773480762,
   1359893119, 2600822924, 528734635, 1541459225⟩

/-- SHA-256 round constants (FIPS 180-4). -/
def sha256K : List Nat :=
  [1116352408, 1899447441, 3049323471, 3921009573, 961987163,
   1508970993, 2453635748, 2870763221, 3624381080, 310598401,
   607225278, 1426881987, 1925078388, 2162078206, 2614888103,
   3248222580, 3835390401, 4022224774, 264347078, 604807628,
   770255983, 1249150122, 1555081692, 1996064986, 2554220882,
   2821834349, 2952996808, 3210313671, 3336571891, 3584528711,
   113926993, 338241895, 666307205, 773529912, 1294757372,
   1396182291, 1695183700, 1986661051, 2177026350, 2456956037,
   2730485921, 2820302411, 3259730800, 3345764771, 3516065817,
   3600352804, 4094571909, 275423344, 430227734, 506948616,
   659060556, 883997877, 958139571, 1322822218, 1537002063,
   1747873779, 1955562222, 2024104815, 2227730452, 2361852424,
   2428436474, 2756734187, 3204031479, 3329325298]

/-- Extend the sixteen message words of a SHA-256 block to sixty-four. -/
def sha256Schedule (base : List Nat) : Nat → List Nat
  | 0 => base
  | n + 1 =>
    let ws := sha256Schedule base n
    let t := ws.length
    let s0 := fun x => (rotr32 7 x) ^^^ (rotr32 18 x) ^^^ (x >>> 3)
    let s1 := fun x => (rotr32 17 x) ^^^ (rotr32 19 x) ^^^ (x >>> 10)
    ws ++ [w32 (s1 (ws.getD (t - 2) 0) + ws.getD (t - 7) 0
                + s0 (ws.getD (t - 15) 0) + ws.getD (t - 16) 0)]

/-- The SHA-256 compression function on one 64-byte block. -/
def sha256Compress (st : Sha256St) (block : List Nat) : Sha256St :=
  let ws := sha256Schedule ((groupBytes 4 block).map word32BE) 48
  let step := fun (t : Nat × Nat × Nat × Nat × Nat × Nat × Nat × Nat) (i : Nat) =>
    let (a, b, c, d, e, f, g, h) := t
    let bigS1 := (rotr32 6 e) ^^^ (rotr32 11 e) ^^^ (rotr32 25 e)
    let ch := (e &&& f) ^^^ ((0xffffffff - e) &&& g)
    let t1 := w32 (h + bigS1 + ch + sha256K.getD i 0 + ws.getD i 0)
    let bigS0 := (rotr32 2 a) ^^^ (rotr32 13 a) ^^^ (rotr32 22 a)
    let maj := (a &&& b) ^^^ (a &&& c) ^^^ (b &&& c)
    let t2 := w32 (bigS0 + maj)
    (w32 (t1 + t2), a, b, c, w32 (d + t1), e, f, g)
  let r := (List.range 64).foldl step
    (st.h0, st.h1, st.h2, st.h3, st.h4, st.h5, st.h6, st.h7)
  let (a, b, c, d, e, f, g, h) := r
  ⟨w32 (st.h0 + a), w32 (st.h1 + b), w32 (st.h2 + c), w32 (st.h3 + d),
   w32 (st.h4 + e), w32 (st.h5 + f), w32 (st.h6 + g), w32 (st.h7 + h)⟩

/-- The 32 digest bytes of a SHA-256 state, big-endian per word. -/
def sha256DigestBytes (st : Sha256St) : List Nat :=
  be32 st.h0 ++ be32 st.h1 ++ be32 st.h2 ++ be32 st.h3 ++
  be32 st.h4 ++ be32 st.h5 ++ be32 st.h6 ++ be32 st.h7

/-- SHA-256 of a byte list, as its 32 digest bytes. -/
def sha256Bytes (msg : List Nat) : List Nat :=
  sha256DigestBytes ((groupBytes 64 (mdPad be64 msg)).foldl sha256Compress sha256Init)

/-- The lowercase hexadecimal alphabet. -/
def hexAlphabet : JStr := "0123456789abcdef".data

/-- The lowercase hexadecimal digit of a value below sixteen. -/
def hexDigit (n : Nat) : Char := hexAlphabet.getD n '0'

/-- Two lowercase hexadecimal characters for one byte. -/
def byteToHex (b : Nat) : JStr := [hexDigit (b / 16 % 16), hexDigit (b % 16)]

/-- Lowercase hexadecimal rendering of a byte list, as Node's
`digest('hex')` produces it. -/
def bytesToHex : List Nat → JStr
  | [] => []
  | b :: rest => byteToHex b ++ bytesToHex rest

/-- Mirror of `generateImageHash` (server.js lines 209-211, part_002 lines
343-346): the lowercase hex SHA-256 digest of the uploaded bytes. -/
def generateImageHash (imageBuffer : JBuf) : JStr :=
  bytesToHex (sha256Bytes imageBuffer)

/-- The MD5 chaining state. -/
structure Md5St where
  a0 : Nat
  b0 : Nat
  c0 : Nat
  d0 : Nat

/-- MD5 initial state (RFC 1321). -/
def md5Init : Md5St := ⟨0x67452301, 0xefcdab89, 0x98badcfe, 0x10325476⟩

/-- MD5 per-round shift amounts (RFC 1321). -/
def md5S : List Nat :=
  [7, 12, 17, 22, 7, 12, 17, 22, 7, 12, 17, 22, 7, 12, 17, 22,
   5, 9, 14, 20, 5, 9, 14, 20, 5, 9, 14, 20, 5, 9, 14, 20,
   4, 11, 16, 23, 4, 11, 16, 23, 4, 11, 16, 23, 4, 11, 16, 23,
   6, 10, 15, 21, 6, 10, 15, 21, 6, 10, 15, 21, 6, 10, 15, 21]

/-- MD5 sine-derived round constants (RFC 1321). -/
def md5K : List Nat :=
  [3614090360, 3905402710, 606105819, 3250441966, 4118548399, 1200080426,
   2821735955, 4249261313, 1770035416, 2336552879, 4294925233, 2304563134,
   1804603682, 4254626195, 2792965006, 1236535329, 4129170786, 3225465664,
   643717713, 3921069994, 3593408605, 38016083, 3634488961, 3889429448,
   568446438, 3275163606, 4107603335, 1163531501, 2850285829, 4243563512,
   1735328473, 2368359562, 4294588738, 2272392833, 1839030562, 4259657740,
   2763975236, 1272893353, 4139469664, 3200236656, 681279174, 3936430074,
   3572445317, 76029189, 3654602809, 3873151461, 530742520, 3299628645,
   4096336452, 1126891415, 2878612391, 4237533241, 1700485571, 2399980690,
   4293915773, 2240044497, 1873313359, 4264355552, 2734768916, 1309151649,
   4149444226, 3174756917, 718787259, 3951481745]

/-- Bitwise complement within 32 bits. -/
def not32 (n : Nat) : Nat := 4294967295 - w32 n

/-- The MD5 compression function on one 64-byte block. -/
def md5Compress (st : Md5St) (block : List Nat) : Md5St :=
  let m := (groupBytes 4 block).map word32LE
  let step := fun (t : Nat × Nat × Nat × Nat) (i : Nat) =>
    let (a, b, c, d) := t
    let fg : Nat × Nat :=
      if i < 16 then ((b &&& c) ||| (not32 b &&& d), i)
      else if i < 32 then ((d &&& b) ||| (not32 d &&& c), (5 * i + 1) % 16)
      else if i < 48 then (b ^^^ c ^^^ d, (3 * i + 5) % 16)
      else (c ^^^ (b ||| not32 d), 7 * i % 16)
    let f := w32 (fg.1 + a + md5K.getD i 0 + m.getD fg.2 0)
    (d, w32 (b + rotl32 (md5S.getD i 0) f), b, c)
  let r := (List.range 64).foldl step (st.a0, st.b0, st.c0, st.d0)
  ⟨w32 (st.a0 + r.1), w32 (st.b0 + r.2.1), w32 (st.c0 + r.2.2.1),
   w32 (st.d0 + r.2.2.2)⟩

/-- MD5 of a byte list, rendered as lowercase hex (RFC 1321; little-endian
length padding and little-endian digest words). -/
def md5Hex (msg : List Nat) : JStr :=
  let st := (groupBytes 64 (mdPad le64 msg)).foldl md5Compress md5Init
  bytesToHex (le32 st.a0 ++ le32 st.b0 ++ le32 st.c0 ++ le32 st.d0)

/-- JavaScript `parseInt(s, 16)`: the value of the leading hexadecimal
digits (`0` for an empty digit run; the sources only apply it to valid hex
prefixes of MD5 digests, where it never hits the `NaN` case). -/
def parseIntHex (s : JStr) : Nat :=
  let hexVal := fun (c : Char) =>
    if '0' ≤ c ∧ c ≤ '9' then some (c.toNat - '0'.toNat)
    else if 'a' ≤ c ∧ c ≤ 'f' then some (c.toNat - 'a'.toNat + 10)
    else if 'A' ≤ c ∧ c ≤ 'F' then some (c.toNat - 'A'.toNat + 10)
    else none
  let rec go (acc : Nat) : JStr → Nat
    | [] => acc
    | c :: rest =>
      match hexVal c with
      | some v => go (16 * acc + v) rest
      | none => acc
  go 0 s

/-! ## src/server.js — `makeApiRequestWithFallback` (lines 81-193)

Key rotation and usage-stat bookkeeping on the success path touch only
logging and the persisted counters, not the returned value or the thrown
error, and are modelled separately; the loop itself is embedded as a
function of the sequence of per-attempt outcomes. -/

/-- A JavaScript `Error`-like value: its `name`, optional `code` (set by
Node's networking errors) and `message`. -/
structure JsError where
  name : JStr
  code : Option JStr
  message : JStr
deriving DecidableEq, Repr

/-- Construction `new Error(msg)`. -/
def mkError (msg : JStr) : JsError := ⟨"Error".data, none, msg⟩

/-- The parsed upstream response body (`await response.json()`), treated as
opaque data by the retry loop. -/
structure ApiData where
  raw : JStr
deriving DecidableEq, Repr

/-- The observable outcome of one `fetch` attempt inside
`makeApiRequestWithFallback`: an ok response with its JSON body, a non-ok
HTTP response with status/statusText/body text, or a thrown
network/abort error. -/
inductive Attempt where
  | ok (data : ApiData)
  | httpErr (status : Nat) (statusText : JStr) (errorText : JStr)
  | netErr (e : JsError)
deriving DecidableEq, Repr

/-- Mirror of server.js lines 141-152: the error recorded for a non-ok
HTTP response, by status code. -/
def httpErrorFor (status : Nat) (statusText errorText : JStr) : JsError :=
  if status = 401 then
    mkError "Invalid API key - please check your OpenRouter API key".data
  else if status = 429 then
    mkError "Rate limit exceeded - please wait before trying again".data
  else if status = 402 then
    mkError "Insufficient OpenRouter credits - please add credits to your account".data
  else
    mkError ("API request failed: ".data ++ (Nat.repr status).data ++ " ".data
      ++ statusText ++ " - ".data ++ errorText)

/-- Mirror of server.js lines 165-181: the error recorded for a thrown
network/abort error, by error name, `code`, or message content. -/
def netErrorFor (e : JsError) : JsError :=
  if e.name = "AbortError".data then
    mkError "Request timeout - API request took too long".data
  else if e.code = some "ECONNREFUSED".data then
    mkError "Cannot connect to OpenRouter API - check your internet connection".data
  else if e.code = some "ENOTFOUND".data then
    mkError "Cannot reach OpenRouter servers - check your internet connection".data
  else if e.code = some "ETIMEDOUT".data then
    mkError "Connection to OpenRouter timed out".data
  else if jsContains e.message "fetch".data then
    mkError "Network request failed - check your connection".data
  else e

/-- The error `makeApiRequestWithFallback` records for a failed attempt. -/
def recordedErrorFor : Attempt → JsError
  | .ok _ => mkError "All API keys failed".data
  | .httpErr status statusText errorText => httpErrorFor status statusText errorText
  | .netErr e => netErrorFor e

/-- The generic error thrown when the loop body never ran
(`throw lastError || new Error('All API keys failed')`). -/
def allKeysFailedError : JsError := mkError "All API keys failed".data

/-- Mirror of the retry loop of `makeApiRequestWithFallback` (server.js
lines 82-192): `outcomes n` is what attempt `n` observes, the `Nat`
argument is the remaining attempt budget, the accumulator is `lastError`.
Returns the delivered result together with the number of attempts made. -/
def fallbackLoop (outcomes : Nat → Attempt) :
    Nat → Option JsError → Except JsError ApiData × Nat
  | 0, lastError => (.error (lastError.getD allKeysFailedError), 0)
  | remaining + 1, _lastError =>
    match outcomes 0 with
    | .ok data => (.ok data, 1)
    | .httpErr status statusText errorText =>
      let p := fallbackLoop (fun n => outcomes (n + 1)) remaining
        (some (httpErrorFor status statusText errorText))
      (p.1, p.2 + 1)
    | .netErr e =>
      let p := fallbackLoop (fun n => outcomes (n + 1)) remaining
        (some (netErrorFor e))
      (p.1, p.2 + 1)

/-- Mirror of `makeApiRequestWithFallback(requestBody, maxRetries)`
(server.js line 81): run up to `maxRetries` sequential attempts. -/
def makeApiRequestWithFallback (outcomes : Nat → Attempt) (maxRetries : Nat) :
    Except JsError ApiData × Nat :=
  fallbackLoop outcomes maxRetries none

/-- The API key list configured in server.js (lines 24-26). -/
def OPENROUTER_API_KEYS : List JStr :=
  ["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".data]

/-- The default `maxRetries` of `makeApiRequestWithFallback`:
`OPENROUTER_API_KEYS.length`. -/
def defaultMaxRetries : Nat := OPENROUTER_API_KEYS.length

/-! ## Captions and their validation

`src/server.js` (lines 278-311) and `src/unnamed/part_002` (lines 413-504)
both define `validateCaptions`, with materially different bodies; both are
embedded, in their own namespaces. -/

/-- A caption record as exchanged with the model: `chinese`, `pinyin`,
`english`, `relevance` (absent string fields are modelled as `[]`, which is
also what JavaScript truthiness tests treat as absent). -/
structure Caption where
  chinese : JStr
  pinyin : JStr
  english : JStr
  relevance : JStr
deriving DecidableEq, Repr

/-- JavaScript `toLowerCase`, restricted to ASCII case folding (every
character the modelled call sites compare case-insensitively is ASCII or
has no case). -/
def jsToLower (s : JStr) : JStr := s.map Char.toLower

namespace ServerJs

/-- The `genericPhrases` list of server.js lines 292-295, byte-exact: the
file stores the five Chinese phrases in mojibake (UTF-8 read as Latin-1),
and the fifth ends in a literal double quote. -/
def genericPhrases : List JStr :=
  ["è¿™æ˜¯ä¸€ä¸ª".data,
   "è¿™æ˜¯ç…§ç‰‡".data,
   "è¿™æ˜¯å›¾ç‰‡".data,
   "è¿™æ˜¯ä¸œè¥¿".data,
   "è¿™æ˜¯ç‰©ä½\u0022".data,
   "this is a".data, "this is an".data, "this is the".data,
   "this looks like".data]

/-- The per-caption filter loop of server.js `validateCaptions`
(lines 281-308): skip captions missing a required field, with `relevance`
equal to `'low'`, or containing a generic phrase. -/
def validateCaptionsLoop : List Caption → List Caption
  | [] => []
  | caption :: rest =>
    if caption.chinese = [] ∨ caption.pinyin = [] ∨ caption.english = [] then
      validateCaptionsLoop rest
    else if caption.relevance = "low".data then
      validateCaptionsLoop rest
    else if genericPhrases.any (fun phrase =>
        jsContains (jsToLower caption.chinese) phrase ||
        jsContains (jsToLower caption.english) phrase) then
      validateCaptionsLoop rest
    else
      caption :: validateCaptionsLoop rest

/-- Mirror of server.js `validateCaptions` (lines 278-311): the filter loop
followed by `slice(0, 3)`. (The unused `analysis` parameter is dropped.) -/
def validateCaptions (captions : List Caption) : List Caption :=
  (validateCaptionsLoop captions).take 3

end ServerJs

/-- An ASCII letter (`[a-zA-Z]` in the source regexes). -/
def isAsciiLetter (c : Char) : Bool :=
  ('a' ≤ c && c ≤ 'z') || ('A' ≤ c && c ≤ 'Z')

/-- A CJK unified ideograph (`[一-鿿]` in the source regexes). -/
def isCjk (c : Char) : Bool := 0x4e00 ≤ c.toNat && c.toNat ≤ 0x9fff

/-- Count of maximal ASCII-letter runs: the length of
`text.match(/[a-zA-Z]+/g)` (`0` when `null`). -/
def alphaRunCountAux (prevAlpha : Bool) : JStr → Nat
  | [] => 0
  | c :: rest =>
    if isAsciiLetter c && !prevAlpha then
      alphaRunCountAux true rest + 1
    else
      alphaRunCountAux (isAsciiLetter c) rest

/-- Count of maximal ASCII-letter runs in a string. -/
def alphaRunCount (s : JStr) : Nat := alphaRunCountAux false s

namespace Part002

/-- Test of one `/这是\s*…/` pattern: somewhere in the text, the literal
`这是`, optional whitespace, then a tail matched by `tail` (a single ASCII
letter or one of the literal words; none of those tails starts with
whitespace, so the greedy `\s*` skip is exact here). -/
def zheShiPattern (tail : JStr → Bool) : JStr → Bool
  | [] => false
  | c :: rest =>
    ("这是".data.isPrefixOf (c :: rest)
      && tail (((c :: rest).drop 2).dropWhile jsWs))
    || zheShiPattern tail rest

/-- The `problematicPatterns.some(…)` test of part_002 lines 456-466. -/
def hasProblematicPattern (t : JStr) : Bool :=
  zheShiPattern (fun r => (r.head?.map isAsciiLetter).getD false) t ||
  zheShiPattern (fun r => "person".data.isPrefixOf r) t ||
  zheShiPattern (fun r => "thing".data.isPrefixOf r) t ||
  zheShiPattern (fun r => "object".data.isPrefixOf r) t ||
  zheShiPattern (fun r => "something".data.isPrefixOf r) t ||
  zheShiPattern (fun r => "someone".data.isPrefixOf r) t

/-- The `pinyinMap` character table of part_002 lines 509-530, in source
order. The JavaScript object literal repeats some keys with identical
values, so first-match lookup agrees with the object's last-wins
semantics. -/
def pinyinMap : List (Char × JStr) :=
  [('你', "nǐ".data), ('好', "hǎo".data), ('学', "xué".data), ('习', "xí".data),
   ('大', "dà".data), ('中', "zhōng".data), ('国', "guó".data), ('老', "lǎo".data),
   ('师', "shī".data), ('生', "shēng".data), ('朋', "péng".data), ('友', "yǒu".data),
   ('家', "jiā".data), ('庭', "tíng".data), ('工', "gōng".data), ('作', "zuò".data),
   ('时', "shí".data), ('间', "jiān".data), ('我', "wǒ".data), ('是', "shì".data),
   ('一', "yī".data), ('个', "gè".data), ('的', "de".data), ('在', "zài".data),
   ('很', "hěn".data), ('有', "yǒu".data), ('和', "hé".data), ('了', "le".data),
   ('不', "bù".data), ('要', "yào".data), ('会', "huì".data), ('来', "lái".data),
   ('到', "dào".data), ('去', "qù".data), ('上', "shàng".data), ('下', "xià".data),
   ('里', "lǐ".data), ('外', "wài".data), ('前', "qián".data), ('后', "hòu".data),
   ('左', "zuǒ".data), ('右', "yòu".data), ('猫', "māo".data), ('狗', "gǒu".data),
   ('鸟', "niǎo".data), ('鱼', "yú".data), ('花', "huā".data), ('树', "shù".data),
   ('山', "shān".data), ('水', "shuǐ".data), ('天', "tiān".data), ('地', "dì".data),
   ('人', "rén".data), ('手', "shǒu".data), ('眼', "yǎn".data), ('口', "kǒu".data),
   ('心', "xīn".data), ('头', "tóu".data), ('身', "shēn".data), ('脚', "jiǎo".data),
   ('车', "chē".data), ('房', "fáng".data), ('门', "mén".data), ('窗', "chuāng".data),
   ('桌', "zhuō".data), ('椅', "yǐ".data), ('床', "chuáng".data), ('书', "shū".data),
   ('笔', "bǐ".data), ('纸', "zhǐ".data), ('吃', "chī".data), ('喝', "hē".data),
   ('睡', "shuì".data), ('走', "zǒu".data), ('跑', "pǎo".data), ('看', "kàn".data),
   ('听', "tīng".data), ('说', "shuō".data), ('笑', "xiào".data), ('哭', "kū".data),
   ('爱', "ài".data), ('想', "xiǎng".data), ('知', "zhī".data), ('道', "dào".data),
   ('这', "zhè".data), ('那', "nà".data), ('什', "shén".data), ('么', "me".data),
   ('怎', "zěn".data), ('样', "yàng".data), ('为', "wèi".data), ('什', "shén".data),
   ('么', "me".data), ('可', "kě".data), ('以', "yǐ".data), ('能', "néng".data),
   ('够', "gòu".data), ('就', "jiù".data), ('都', "dōu".data), ('还', "hái".data),
   ('也', "yě".data), ('只', "zhǐ".data), ('要', "yào".data), ('如', "rú".data),
   ('果', "guǒ".data), ('因', "yīn".data), ('为', "wèi".data), ('所', "suǒ".data),
   ('以', "yǐ".data), ('但', "dàn".data), ('是', "shì".data), ('如', "rú".data),
   ('果', "guǒ".data), ('虽', "suī".data), ('然', "rán".data), ('但', "dàn".data),
   ('是', "shì".data), ('不', "bù".data), ('过', "guò".data), ('图', "tú".data),
   ('片', "piàn".data), ('照', "zhào".data), ('相', "xiàng".data), ('美', "měi".data),
   ('丽', "lì".data), ('漂', "piào".data), ('亮', "liàng".data), ('好', "hǎo".data),
   ('看', "kàn".data), ('有', "yǒu".data), ('趣', "qù".data), ('特', "tè".data),
   ('别', "bié".data), ('非', "fēi".data), ('常', "cháng".data), ('真', "zhēn".data),
   ('的', "de".data), ('确', "què".data), ('实', "shí".data), ('确', "què".data)]

/-- First-match association lookup in `pinyinMap`. -/
def pinyinLookup (c : Char) : List (Char × JStr) → Option JStr
  | [] => none
  | (k, v) :: rest => if c = k then some v else pinyinLookup c rest

/-- JavaScript `Array.prototype.join` with a one-character separator. -/
def joinSepChar (sep : Char) : List JStr → JStr
  | [] => []
  | [t] => t
  | t :: u :: ts => t ++ sep :: joinSepChar sep (u :: ts)

/-- Mirror of `generatePinyinFallback` (part_002 lines 507-533):
`chineseText.split('').map(char => pinyinMap[char] || char).join(' ')`. -/
def generatePinyinFallback (chineseText : JStr) : JStr :=
  joinSepChar ' '
    (chineseText.map (fun c => (pinyinLookup c pinyinMap).getD [c]))

end Part002

namespace Part002

/-- The per-caption loop of part_002 `validateCaptions` (lines 422-500):
require `chinese` and `english`; require a CJK character; bound the mix of
English words; require at least four characters; reject the
`这是`-plus-English patterns; synthesise missing pinyin; drop
`'low'`-relevance captions only when also shorter than three characters;
default `relevance` to `'medium'`. (Nat division in the English-word bound
gives the same verdict as the JavaScript float comparison, since
`w > n / 3` over the reals is `3 * w > n` and `w > n / 3` over `Nat` is
also `3 * w > n` when tested with `3 * w` a multiple of three.) -/
def validateCaptionsLoop : List Caption → List Caption
  | [] => []
  | caption :: rest =>
    if caption.chinese = [] ∨ caption.english = [] then
      validateCaptionsLoop rest
    else
      let chineseText := jsTrim caption.chinese
      if ¬ chineseText.any isCjk then
        validateCaptionsLoop rest
      else
        let englishWordCount := alphaRunCount chineseText
        let chineseCharacterCount := chineseText.countP isCjk
        if englishWordCount > 2 ∧ englishWordCount > chineseCharacterCount / 3 then
          validateCaptionsLoop rest
        else if chineseText.length < 4 then
          validateCaptionsLoop rest
        else if hasProblematicPattern chineseText then
          validateCaptionsLoop rest
        else
          let pinyin :=
            if caption.pinyin = [] then generatePinyinFallback chineseText
            else caption.pinyin
          if caption.relevance = "low".data ∧ chineseText.length < 3 then
            validateCaptionsLoop rest
          else
            let relevance :=
              if caption.relevance = [] then "medium".data else caption.relevance
            { caption with pinyin := pinyin, relevance := relevance }
              :: validateCaptionsLoop rest

/-- Mirror of part_002 `validateCaptions` (lines 413-504); the
non-array guard of line 417 cannot fire in this typed model, and the final
line returns `slice(0, 3)` of the survivors (or `[]` when none). -/
def validateCaptions (captions : List Caption) : List Caption :=
  let v := validateCaptionsLoop captions
  if v.length > 0 then v.take 3 else []

end Part002

namespace Part002

/-- The `general` canned captions (part_002 lines 545-564). -/
def fallbackGeneral : List Caption :=
  [⟨"这是一张很有趣的图片。".data, "zhè shì yī zhāng hěn yǒu qù de tú piàn".data,
    "This is a very interesting picture.".data, "high".data⟩,
   ⟨"这张照片看起来很特别。".data, "zhè zhāng zhào piàn kàn qǐ lái hěn tè bié".data,
    "This photo looks very special.".data, "high".data⟩,
   ⟨"我喜欢这张图片的内容。".data, "wǒ xǐ huān zhè zhāng tú piàn de nèi róng".data,
    "I like the content of this picture.".data, "high".data⟩]

/-- The `nature` canned captions (part_002 lines 565-584). -/
def fallbackNature : List Caption :=
  [⟨"这张自然风景照片真美丽。".data,
    "zhè zhāng zì rán fēng jǐng zhào piàn zhēn měi lì".data,
    "This natural landscape photo is really beautiful.".data, "high".data⟩,
   ⟨"大自然的景色总是让人心旷神怡。".data,
    "dà zì rán de jǐng sè zǒng shì ràng rén xīn kuàng shén yí".data,
    "Natural scenery always makes people feel relaxed and happy.".data, "high".data⟩,
   ⟨"这个风景让我想起了美好的回忆。".data,
    "zhè gè fēng jǐng ràng wǒ xiǎng qǐ le měi hǎo de huí yì".data,
    "This scenery reminds me of beautiful memories.".data, "high".data⟩]

/-- The `people` canned captions (part_002 lines 585-604). -/
def fallbackPeople : List Caption :=
  [⟨"这张照片中的人物看起来很友好。".data,
    "zhè zhāng zhào piàn zhōng de rén wù kàn qǐ lái hěn yǒu hǎo".data,
    "The people in this photo look very friendly.".data, "high".data⟩,
   ⟨"他们的笑容很温暖，让人感到快乐。".data,
    "tā men de xiào róng hěn wēn nuǎn, ràng rén gǎn dào kuài lè".data,
    "Their smiles are warm and make people feel happy.".data, "high".data⟩,
   ⟨"这张照片捕捉到了美好的瞬间。".data,
    "zhè zhāng zhào piàn bǔ zhuō dào le měi hǎo de shùn jiān".data,
    "This photo captured a beautiful moment.".data, "high".data⟩]

/-- The `food` canned captions (part_002 lines 605-624). -/
def fallbackFood : List Caption :=
  [⟨"这道菜看起来非常美味。".data, "zhè dào cài kàn qǐ lái fēi cháng měi wèi".data,
    "This dish looks very delicious.".data, "high".data⟩,
   ⟨"食物的颜色和摆盘都很精致。".data,
    "shí wù de yán sè hé bǎi pán dōu hěn jīng zhì".data,
    "The food's color and presentation are both exquisite.".data, "high".data⟩,
   ⟨"这让我想起了家的味道。".data, "zhè ràng wǒ xiǎng qǐ le jiā de wèi dào".data,
    "This reminds me of the taste of home.".data, "high".data⟩]

/-- The `animals` canned captions (part_002 lines 625-644). -/
def fallbackAnimals : List Caption :=
  [⟨"这只小动物真可爱。".data, "zhè zhī xiǎo dòng wù zhēn kě ài".data,
    "This little animal is really cute.".data, "high".data⟩,
   ⟨"它的表情很有趣，让人忍不住想笑。".data,
    "tā de biǎo qíng hěn yǒu qù, ràng rén rěn bù zhù xiǎng xiào".data,
    "Its expression is very funny and makes people want to laugh.".data, "high".data⟩,
   ⟨"动物们的纯真总是能治愈人心。".data,
    "dòng wù men de chún zhēn zǒng shì néng zhì yù rén xīn".data,
    "The innocence of animals can always heal people's hearts.".data, "high".data⟩]

/-- The `objects` canned captions (part_002 lines 645-664). -/
def fallbackObjects : List Caption :=
  [⟨"这个物品的设计很有创意。".data, "zhè gè wù pǐn de shè jì hěn yǒu chuàng yì".data,
    "The design of this object is very creative.".data, "high".data⟩,
   ⟨"它的形状和颜色搭配得很好。".data,
    "tā de xíng zhuàng hé yán sè dā pèi de hěn hǎo".data,
    "Its shape and color are well matched.".data, "high".data⟩,
   ⟨"这个物品看起来很实用。".data, "zhè gè wù pǐn kàn qǐ lái hěn shí yòng".data,
    "This object looks very practical.".data, "high".data⟩]

/-- The category keys of the canned caption table, in insertion order
(`Object.keys(fallbackCaptions)`). -/
def fallbackCategories : List JStr :=
  ["general".data, "nature".data, "people".data, "food".data,
   "animals".data, "objects".data]

/-- Lookup `fallbackCaptions[selectedCategory]`; the selector is always one
of the six keys, so the default branch is unreachable. -/
def fallbackTable (category : JStr) : List Caption :=
  if category = "general".data then fallbackGeneral
  else if category = "nature".data then fallbackNature
  else if category = "people".data then fallbackPeople
  else if category = "food".data then fallbackFood
  else if category = "animals".data then fallbackAnimals
  else if category = "objects".data then fallbackObjects
  else []

/-- Every caption hardcoded in the fallback table. -/
def allFallbackCaptions : List Caption :=
  fallbackGeneral ++ fallbackNature ++ fallbackPeople ++ fallbackFood ++
  fallbackAnimals ++ fallbackObjects

/-- Out-of-bounds placeholder for the (unreachable) indexing default. -/
def defaultCaption : Caption := ⟨[], [], [], []⟩

/-- Mirror of `generateFallbackCaptions` (part_002 lines 536-684): an MD5
prefix of the image bytes selects a category and two or three captions from
the hardcoded table. -/
def generateFallbackCaptions (imageBuffer : JBuf) (_mimeType : JStr) : List Caption :=
  let hash := md5Hex imageBuffer
  let hashNum := parseIntHex (hash.take 8)
  let selectedCategory :=
    fallbackCategories.getD (hashNum % fallbackCategories.length) []
  let captions := fallbackTable selectedCategory
  let numCaptions := 2 + hashNum % 2
  (List.range numCaptions).map
    (fun i => captions.getD ((hashNum + i) % captions.length) defaultCaption)

/-- The analysis record used by part_002's fallback and handler paths:
`mainSubject`, `description`, `category` (what the optimized handler
extracts). -/
structure AnalysisRec where
  mainSubject : JStr
  description : JStr
  category : JStr
deriving DecidableEq, Repr

/-- The full fallback analysis object of `generateFallbackAnalysis`
(part_002 lines 687-701). -/
structure FallbackAnalysis where
  mainSubject : JStr
  category : JStr
  description : JStr
  context : JStr
  mood : JStr
  colors : JStr
  details : JStr
  confidence : JStr
  alternativeSubjects : List JStr
  keywords : List JStr
  chineseKeywords : List JStr
deriving DecidableEq, Repr

/-- Mirror of `generateFallbackAnalysis` (part_002 lines 687-701). -/
def generateFallbackAnalysis : FallbackAnalysis :=
  ⟨"图片内容".data, "general".data,
   "这是一张有趣的图片，内容丰富多彩。".data,
   "图片展示了一个有趣的场景或物体。".data,
   "positive".data, "various colors".data,
   "图片包含多种元素，值得仔细观察。".data,
   "medium".data, [],
   ["图片".data, "有趣".data, "内容".data, "观察".data],
   ["图片".data, "有趣".data, "内容".data, "观察".data]⟩

end Part002

/-! ## part_002 — the optimized `/api/analyze-image` handler (lines 1529-1759)

The handler makes one direct `fetch`; its observable outcome (ok body
content, non-ok status with parsed error data, or a thrown error — which
also covers `response.json()` and `data.choices[0]` shape failures, since
the enclosing `try` catches them) is a parameter of the model. -/

/-- Case-insensitive `firstOccIdx` (the `i` regex flag; every pattern
compared case-insensitively in the sources is ASCII, so ASCII folding
suffices). -/
def firstOccIdxCI (pat s : JStr) : Option Nat :=
  firstOccIdx (jsToLower pat) (jsToLower s)

/-- Case-insensitive `upToFirst`. -/
def upToFirstCI (pat s : JStr) : JStr :=
  match firstOccIdxCI pat s with
  | some i => s.take i
  | none => s

/-- The capture of `/START([\s\S]*?)(?=END|$)/` : the text after the first
occurrence of `START`, up to the first following occurrence of `END` (or
the end of the string). -/
def sectionBetween (startPat endPat s : JStr) : Option JStr :=
  (firstOccIdx startPat s).map
    (fun i => upToFirst endPat (s.drop (i + startPat.length)))

/-- Case-insensitive `sectionBetween` (for the `CAPTIONn:` sections). -/
def sectionBetweenCI (startPat endPat s : JStr) : Option JStr :=
  (firstOccIdxCI startPat s).map
    (fun i => upToFirstCI endPat (s.drop (i + startPat.length)))

/-- Largest `p ≤ w` whose drop starts with a non-LineTerminator character
(the greedy backtracking point of `\s*(.+)`). -/
def wsBacktrack (rest : JStr) : Nat → Option Nat
  | 0 =>
    match rest.head? with
    | some c => if lineTerm c then none else some 0
    | none => none
  | p + 1 =>
    match (rest.drop (p + 1)).head? with
    | some c => if lineTerm c then wsBacktrack rest p else some (p + 1)
    | none => wsBacktrack rest p

/-- The capture of `\s*(.+)` applied at the start of `rest`: greedily skip
whitespace (backtracking into it when needed), then capture at least one
character up to the end of the line. -/
def wsDotPlus (rest : JStr) : Option JStr :=
  let w := (rest.takeWhile jsWs).length
  (wsBacktrack rest w).map
    (fun p => (rest.drop p).takeWhile (fun c => !lineTerm c))

/-- The first capture of `/LABEL:\s*(.+)/i` in `s`: scanning left to right,
at each case-insensitive occurrence of the label try `\s*(.+)`; the first
position where the whole pattern matches wins. -/
def matchLabelLine (label : JStr) : JStr → Option JStr
  | [] => none
  | c :: rest =>
    if (jsToLower label).isPrefixOf (jsToLower (c :: rest)) then
      match wsDotPlus ((c :: rest).drop label.length) with
      | some cap => some cap
      | none => matchLabelLine label rest
    else matchLabelLine label rest

/-- Mirror of the analysis extraction of the optimized handler (part_002
lines 1681-1695): `null` when the `ANALYSIS:` section regex fails, in which
case the handler's `analysis` object stays empty. -/
def parseAnalysis (responseText : JStr) : Option Part002.AnalysisRec :=
  match sectionBetween "ANALYSIS:".data "CAPTION1:".data responseText with
  | none => none
  | some analysisText =>
    some ⟨(match matchLabelLine "Main subject:".data analysisText with
           | some v => jsTrim v
           | none => "image content".data),
          (match matchLabelLine "Description:".data analysisText with
           | some v => jsTrim v
           | none => "Image description".data),
          (match matchLabelLine "Category:".data analysisText with
           | some v => jsTrim v
           | none => "general".data)⟩

/-- Mirror of one iteration of the caption extraction loop (part_002 lines
1698-1717): the `CAPTIONi:` section (case-insensitive), then `Chinese:`,
`Pinyin:`, `English:` lines; a caption is produced only when the Chinese
line's trimmed capture is non-empty. -/
def extractCaption (i : Nat) (responseText : JStr) : Option Caption :=
  match sectionBetweenCI ("CAPTION".data ++ (Nat.repr i).data ++ [':'])
      ("CAPTION".data ++ (Nat.repr (i + 1)).data ++ [':']) responseText with
  | none => none
  | some captionText =>
    match matchLabelLine "Chinese:".data captionText with
    | none => none
    | some chineseCap =>
      if jsTrim chineseCap = [] then none
      else
        some ⟨jsTrim chineseCap,
          (match matchLabelLine "Pinyin:".data captionText with
           | some p => jsTrim p
           | none => "pīn yīn".data),
          (match matchLabelLine "English:".data captionText with
           | some e => jsTrim e
           | none => "Translation".data),
          "high".data⟩

/-- The captions collected by the `for (let i = 1; i <= 3; i++)` loop. -/
def extractCaptions (responseText : JStr) : List Caption :=
  [1, 2, 3].filterMap (fun i => extractCaption i responseText)

/-- An uploaded multipart file as multer presents it (`req.file`). -/
structure UploadedFile where
  originalname : JStr
  mimetype : JStr
  buffer : JBuf
deriving DecidableEq, Repr

/-- What `cacheResult` stores for one image hash: in the optimized handler
this is the `{analysis, captions}` pair (`analysis` stays `none` when the
`ANALYSIS:` section was missing; the expiry logic never inspects it). -/
structure StoredResult where
  analysis : Option Part002.AnalysisRec
  captions : List Caption
deriving DecidableEq, Repr

/-- A cache entry as `cacheResult` creates it (server.js lines 219-226,
part_002 lines 353-361): the result, the storing time, an access count. -/
structure CacheEntry where
  result : StoredResult
  timestamp : Nat
  accessCount : Nat
deriving DecidableEq, Repr

/-- One day's usage counters. -/
structure DailyEntry where
  requests : Nat
  cost : ℚ
deriving DecidableEq, Repr

/-- The mutable `usageStats` object (server.js lines 30-36, part_002 lines
44-50). Costs are modelled as rationals; none of the modelled paths does
float-specific arithmetic on them. -/
structure UsageStats where
  totalRequests : Nat
  totalCost : ℚ
  requestsByKey : List (JStr × Nat)
  dailyUsage : List (JStr × DailyEntry)
  imageHashes : List (JStr × CacheEntry)
deriving DecidableEq, Repr

/-- `Map.prototype.get` on an insertion-ordered association list. -/
def mapLookup {α : Type} (k : JStr) : List (JStr × α) → Option α
  | [] => none
  | (k', v) :: rest => if k = k' then some v else mapLookup k rest

/-- `Map.prototype.set`: replace in place, or append. -/
def mapSet {α : Type} (k : JStr) (v : α) : List (JStr × α) → List (JStr × α)
  | [] => [(k, v)]
  | (k', v') :: rest =>
    if k = k' then (k, v) :: rest else (k', v') :: mapSet k v rest

/-- Mirror of `cacheResult` (identical in server.js lines 219-226 and
part_002 lines 353-361): store the result under the hash with the current
time and access count 1. -/
def cacheResult (imageHash : JStr) (result : StoredResult) (now : Nat)
    (st : UsageStats) : UsageStats :=
  { st with imageHashes := mapSet imageHash ⟨result, now, 1⟩ st.imageHashes }

/-- The observable outcome of the single `fetch` in the optimized handler:
an ok response with `data.choices[0].message.content`, a non-ok response
with its parsed `errorData.error` fields, or a thrown error (network
failure, bad response JSON, or missing `choices`). -/
inductive FetchOutcome where
  | ok (content : JStr)
  | httpError (status : Nat) (errType errCode errMsg : Option JStr)
  | thrown (message : JStr)
deriving DecidableEq, Repr

/-- The quota test of part_002 lines 1636-1638. -/
def isQuotaError (status : Nat) (errType errCode errMsg : Option JStr) : Bool :=
  status = 429 || errType = some "insufficient_quota".data ||
  errCode = some "insufficient_quota".data ||
  (match errMsg with
   | some m => jsContains m "quota".data
   | none => false)

/-- The message of the error thrown for a non-ok, non-quota response
(part_002 line 1673). -/
def apiRequestFailedMsg (errMsg : Option JStr) : JStr :=
  "API request failed: ".data ++
  (match errMsg with
   | some m => if m = [] then "Unknown error".data else m
   | none => "Unknown error".data)

/-- The file types the optimized handler accepts (part_002 line 1540). -/
def allowedTypes : List JStr :=
  ["image/jpeg".data, "image/jpg".data, "image/png".data,
   "image/gif".data, "image/webp".data]

/-- The canned caption of the quota-exceeded response and cache entry
(part_002 lines 1648-1653 and 1663-1668). -/
def quotaCaption : Caption :=
  ⟨"这是一张有趣的图片。".data, "zhè shì yī zhāng yǒu qù de tú piàn".data,
   "This is an interesting image.".data, "medium".data⟩

/-- The analysis stored and returned on the quota path (part_002 lines
1643-1647 and 1658-1662). -/
def quotaAnalysis : Part002.AnalysisRec :=
  ⟨"image content".data,
   "Image analysis temporarily unavailable due to API quota limits".data,
   "general".data⟩

/-- The distinct response bodies the optimized handler can send, keyed by
the `res.…` call that produces them (each constructor carries the
data-dependent fields of that JSON body). -/
inductive AnalyzeResponse where
  | noFile
  | unsupportedFormat (mimetype : JStr)
  | cachedHit (entry : CacheEntry)
  | quotaFallback
  | fresh (analysis : Option Part002.AnalysisRec) (captions : List Caption)
  | errorFallback (analysis : Part002.FallbackAnalysis) (captions : List Caption)
      (errMsg : JStr)
deriving DecidableEq, Repr

/-- The HTTP status of each response (part_002: 400 for the two request
validation failures, 200 for everything else). -/
def responseStatus : AnalyzeResponse → Nat
  | .noFile => 400
  | .unsupportedFormat _ => 400
  | _ => 200

/-- The `success` field of each response body (`none` for the no-file body,
which carries only `error`). -/
def responseSuccess : AnalyzeResponse → Option Bool
  | .noFile => none
  | .unsupportedFormat _ => some false
  | _ => some true

/-- The `error` field of the two 400 bodies. -/
def responseErrorField : AnalyzeResponse → Option JStr
  | .noFile => some "No image file provided".data
  | .unsupportedFormat _ => some "Unsupported file format".data
  | _ => none

/-- What one run of the optimized handler produces: the response sent, the
usage-stats state afterwards, and whether the upstream API was called. -/
structure HandlerResult where
  response : AnalyzeResponse
  stats : UsageStats
  apiCalled : Bool
deriving DecidableEq, Repr

/-- Mirror of the optimized `POST /api/analyze-image` handler (part_002
lines 1529-1759). `now` is `Date.now()`; `fetchResult` is the outcome the
single upstream call would observe. Control flow: missing file and
unsupported type answer 400 before anything else; a cache hit is served
with no freshness check; a quota-failure response caches and returns the
canned quota body; any other thrown/non-ok outcome lands in the outer
`catch`, which answers 200 with the canned fallback captions; an ok
response is parsed with the regex extractors, empty extraction replaced by
the canned fallback captions, cached, counted, and returned. -/
def handleAnalyzeImage (now : Nat) (file : Option UploadedFile)
    (st : UsageStats) (fetchResult : FetchOutcome) : HandlerResult :=
  match file with
  | none => ⟨.noFile, st, false⟩
  | some f =>
    if ¬ allowedTypes.contains f.mimetype then
      ⟨.unsupportedFormat f.mimetype, st, false⟩
    else
      let imageHash := generateImageHash f.buffer
      match mapLookup imageHash st.imageHashes with
      | some entry => ⟨.cachedHit entry, st, false⟩
      | none =>
        match fetchResult with
        | .thrown msg =>
          ⟨.errorFallback Part002.generateFallbackAnalysis
            (Part002.generateFallbackCaptions f.buffer f.mimetype) msg,
           st, true⟩
        | .httpError status errType errCode errMsg =>
          if isQuotaError status errType errCode errMsg then
            ⟨.quotaFallback,
             cacheResult imageHash ⟨some quotaAnalysis, [quotaCaption]⟩ now st,
             true⟩
          else
            ⟨.errorFallback Part002.generateFallbackAnalysis
              (Part002.generateFallbackCaptions f.buffer f.mimetype)
              (apiRequestFailedMsg errMsg),
             st, true⟩
        | .ok content =>
          let analysis := parseAnalysis content
          let captions0 := extractCaptions content
          let captions :=
            if captions0 = [] then
              Part002.generateFallbackCaptions f.buffer f.mimetype
            else captions0
          let st1 := cacheResult imageHash ⟨analysis, captions⟩ now st
          let st2 := { st1 with totalRequests := st1.totalRequests + 1 }
          ⟨.fresh analysis captions, st2, true⟩

/-- Mirror of the `POST /api/clear-cache` handler (server.js lines 708-717,
part_002 lines 1780-1789, identical): `usageStats.imageHashes.clear()` then
a success body. (`Map.prototype.clear` cannot throw, so the catch branch is
dead.) -/
def handleClearCache (st : UsageStats) : UsageStats × (Bool × JStr) :=
  ({ st with imageHashes := [] }, (true, "Cache cleared".data))

namespace ServerJs

/-- The 24-hour cache lifetime (`24 * 60 * 60 * 1000` ms). -/
def ONE_DAY_MS : Nat := 24 * 60 * 60 * 1000

/-- The two ways the cache check of server.js `analyzeImage` can continue:
return the cached result, or fall through to a fresh upstream analysis. -/
inductive CacheCheck where
  | useCached (result : StoredResult)
  | computeFresh
deriving DecidableEq, Repr

/-- Mirror of the cache-check prefix of server.js `analyzeImage` (lines
319-327): serve `cached.result` exactly when an entry exists and
`Date.now() - cached.timestamp < 24 * 60 * 60 * 1000`. (A clock running
backwards makes the JavaScript difference negative, which also passes the
`<` test; truncated `Nat` subtraction gives `0`, the same verdict.) -/
def analyzeImageCacheCheck (now : Nat) (imageBuffer : JBuf)
    (st : UsageStats) : CacheCheck :=
  let imageHash := generateImageHash imageBuffer
  match mapLookup imageHash st.imageHashes with
  | some cached =>
    if now - cached.timestamp < ONE_DAY_MS then .useCached cached.result
    else .computeFresh
  | none => .computeFresh

/-- The `'```json'` fence marker. -/
def fence : JStr := "```json".data

/-- The `'```'` fence marker. -/
def ticks : JStr := "```".data

/-- Mirror of the markdown-fence stripping step of server.js `analyzeImage`
(lines 403-407) and `generateChineseDescriptions` (lines 552-556), applied
to the already-trimmed response text:
`t.split('```json')[1].split('```')[0].trim()` when `'```json'` occurs,
else `t.split('```')[1].split('```')[0].trim()` when `'```'` occurs, else
the text unchanged. -/
def stripFences (s : JStr) : JStr :=
  if jsContains s fence then
    jsTrim ((jsSplit ticks ((jsSplit fence s).getD 1 [])).getD 0 [])
  else if jsContains s ticks then
    jsTrim ((jsSplit ticks ((jsSplit ticks s).getD 1 [])).getD 0 [])
  else s

/-- Mirror of the brace-extraction step (server.js lines 411-415 and
560-564): when the first `'{'` sits strictly before the last `'}'`, keep
exactly the characters from that `'{'` to that `'}'`. -/
def extractBraces (s : JStr) : JStr :=
  match jsIndexOfChar '{' s, jsLastIndexOfChar '}' s with
  | some i, some j => if i < j then jsSubstring i (j + 1) s else s
  | some _, none => s
  | none, some _ => s
  | none, none => s

/-- The full cleanup pipeline in front of `JSON.parse` (server.js lines
399-415 and 548-564): trim, strip fences, extract braces. -/
def cleanResponseText (analysisText : JStr) : JStr :=
  extractBraces (stripFences (jsTrim analysisText))

end ServerJs

/-! ## Shared lemmas -/

/-- Whether an attempt outcome is an ok HTTP response. -/
def Attempt.isOk : Attempt → Bool
  | .ok _ => true
  | _ => false

theorem fallbackLoop_attempts_le (outcomes : Nat → Attempt) :
    ∀ r last, (fallbackLoop outcomes r last).2 ≤ r := by
  intro r
  induction r generalizing outcomes with
  | zero => intro last; simp [fallbackLoop]
  | succ r ih =>
    intro last
    unfold fallbackLoop
    match outcomes 0 with
    | .ok d => simp
    | .httpErr status statusText errorText =>
      simpa using ih (fun n => outcomes (n + 1)) _
    | .netErr e =>
      simpa using ih (fun n => outcomes (n + 1)) _

theorem fallbackLoop_first_ok (outcomes : Nat → Attempt) :
    ∀ r last i d, i < r → outcomes i = .ok d →
      (∀ j, j < i → (outcomes j).isOk = false) →
      (fallbackLoop outcomes r last).1 = .ok d := by
  intro r
  induction r generalizing outcomes with
  | zero => intro last i d hi; omega
  | succ r ih =>
    intro last i d hi hok hbefore
    match i, hi with
    | 0, _ =>
      unfold fallbackLoop
      rw [hok]
    | i + 1, hi =>
      have h0 : (outcomes 0).isOk = false := hbefore 0 (by omega)
      unfold fallbackLoop
      match h : outcomes 0 with
      | .ok d' => rw [h] at h0; simp [Attempt.isOk] at h0
      | .httpErr status statusText errorText =>
        simpa using ih (fun n => outcomes (n + 1)) _ i d (by omega) hok
          (fun j hj => hbefore (j + 1) (by omega))
      | .netErr e =>
        simpa using ih (fun n => outcomes (n + 1)) _ i d (by omega) hok
          (fun j hj => hbefore (j + 1) (by omega))

theorem fallbackLoop_all_fail (outcomes : Nat → Attempt) :
    ∀ r last, 0 < r → (∀ j, j < r → (outcomes j).isOk = false) →
      (fallbackLoop outcomes r last).1
        = .error (recordedErrorFor (outcomes (r - 1))) := by
  intro r
  induction r generalizing outcomes with
  | zero => intro last h; omega
  | succ r ih =>
    intro last _ hall
    have h0 : (outcomes 0).isOk = false := hall 0 (by omega)
    unfold fallbackLoop
    match h : outcomes 0 with
    | .ok d => rw [h] at h0; simp [Attempt.isOk] at h0
    | .httpErr status statusText errorText =>
      match r with
      | 0 => simp [fallbackLoop, recordedErrorFor, h]
      | r + 1 =>
        have := ih (fun n => outcomes (n + 1))
          (some (httpErrorFor status statusText errorText)) (by omega)
          (fun j hj => hall (j + 1) (by omega))
        simpa using this
    | .netErr e =>
      match r with
      | 0 => simp [fallbackLoop, recordedErrorFor, h]
      | r + 1 =>
        have := ih (fun n => outcomes (n + 1)) (some (netErrorFor e)) (by omega)
          (fun j hj => hall (j + 1) (by omega))
        simpa using this

/-! ## Claim theorems -/

/-- C3: `makeApiRequestWithFallback` makes at most `maxRetries` sequential
attempts (the default budget being the number of configured API keys),
returns the JSON body of the first attempt whose HTTP response is ok, and,
when every attempt fails, throws the error recorded for the last failed
attempt — or the generic `'All API keys failed'` error when no attempt ran
and none was recorded. -/
theorem makeApiRequestWithFallback_spec (outcomes : Nat → Attempt)
    (maxRetries : Nat) :
    (makeApiRequestWithFallback outcomes maxRetries).2 ≤ maxRetries
    ∧ (∀ i d, i < maxRetries → outcomes i = .ok d →
        (∀ j, j < i → (outcomes j).isOk = false) →
        (makeApiRequestWithFallback outcomes maxRetries).1 = .ok d)
    ∧ (0 < maxRetries → (∀ j, j < maxRetries → (outcomes j).isOk = false) →
        (makeApiRequestWithFallback outcomes maxRetries).1
          = .error (recordedErrorFor (outcomes (maxRetries - 1))))
    ∧ (makeApiRequestWithFallback outcomes 0).1 = .error allKeysFailedError
    ∧ defaultMaxRetries = OPENROUTER_API_KEYS.length := by
  refine ⟨fallbackLoop_attempts_le outcomes maxRetries none, ?_, ?_, ?_, rfl⟩
  · intro i d hi hok hbefore
    exact fallbackLoop_first_ok outcomes maxRetries none i d hi hok hbefore
  · intro hpos hall
    exact fallbackLoop_all_fail outcomes maxRetries none hpos hall
  · simp [makeApiRequestWithFallback, fallbackLoop, allKeysFailedError]

/-- Witness for C3: with one failing then one ok attempt and a budget of
two, the loop returns the second attempt's body; with every attempt
failing, it throws the error recorded for the last one. -/
theorem makeApiRequestWithFallback_spec_witness :
    (makeApiRequestWithFallback
        (fun n => if n = 0 then .httpErr 500 "Internal Server Error".data [] else .ok ⟨"body".data⟩)
        2).1 = .ok ⟨"body".data⟩
    ∧ (makeApiRequestWithFallback (fun _ => .netErr ⟨"AbortError".data, none, []⟩) 2).1
        = .error (recordedErrorFor (.netErr ⟨"AbortError".data, none, []⟩)) := by
  constructor
  · exact (makeApiRequestWithFallback_spec _ 2).2.1 1 ⟨"body".data⟩ (by omega)
      (by decide)
      (fun j hj => by
        have : j = 0 := by omega
        subst this
        decide)
  · exact (makeApiRequestWithFallback_spec _ 2).2.2.1 (by omega)
      (fun j hj => by decide)

/-- C4: the error categories of `makeApiRequestWithFallback`: status 401 an
invalid-API-key error, 429 a rate-limit error, 402 an insufficient-credits
error and any other non-ok status the generic `API request failed` message;
an `AbortError` a timeout error, `ECONNREFUSED` / `ENOTFOUND` / `ETIMEDOUT`
connection-failure errors, and a thrown error matching none of the
branches (in particular one whose message does not mention `fetch`) is kept
unchanged. -/
theorem api_error_categories (statusText errorText : JStr) (e : JsError) :
    httpErrorFor 401 statusText errorText
        = mkError "Invalid API key - please check your OpenRouter API key".data
    ∧ httpErrorFor 429 statusText errorText
        = mkError "Rate limit exceeded - please wait before trying again".data
    ∧ httpErrorFor 402 statusText errorText
        = mkError "Insufficient OpenRouter credits - please add credits to your account".data
    ∧ (∀ status, status ≠ 401 → status ≠ 429 → status ≠ 402 →
        httpErrorFor status statusText errorText
          = mkError ("API request failed: ".data ++ (Nat.repr status).data
              ++ " ".data ++ statusText ++ " - ".data ++ errorText))
    ∧ (e.name = "AbortError".data →
        netErrorFor e = mkError "Request timeout - API request took too long".data)
    ∧ (e.name ≠ "AbortError".data → e.code = some "ECONNREFUSED".data →
        netErrorFor e
          = mkError "Cannot connect to OpenRouter API - check your internet connection".data)
    ∧ (e.name ≠ "AbortError".data → e.code = some "ENOTFOUND".data →
        netErrorFor e
          = mkError "Cannot reach OpenRouter servers - check your internet connection".data)
    ∧ (e.name ≠ "AbortError".data → e.code = some "ETIMEDOUT".data →
        netErrorFor e = mkError "Connection to OpenRouter timed out".data)
    ∧ (e.name ≠ "AbortError".data → e.code ≠ some "ECONNREFUSED".data →
        e.code ≠ some "ENOTFOUND".data → e.code ≠ some "ETIMEDOUT".data →
        jsContains e.message "fetch".data = false → netErrorFor e = e) := by
  refine ⟨rfl, rfl, rfl, ?_, ?_, ?_, ?_, ?_, ?_⟩
  · intro status h1 h2 h3
    unfold httpErrorFor
    rw [if_neg h1, if_neg h2, if_neg h3]
  · intro h
    unfold netErrorFor
    rw [if_pos h]
  · intro h1 h2
    unfold netErrorFor
    rw [if_neg h1, if_pos h2]
  · intro h1 h2
    unfold netErrorFor
    by_cases hc : e.code = some "ECONNREFUSED".data
    · rw [if_neg h1, if_pos hc]
      have : some "ENOTFOUND".data = some "ECONNREFUSED".data := hc ▸ h2.symm
      simp at this
    · rw [if_neg h1, if_neg hc, if_pos h2]
  · intro h1 h2
    unfold netErrorFor
    have hc1 : e.code ≠ some "ECONNREFUSED".data := by rw [h2]; decide
    have hc2 : e.code ≠ some "ENOTFOUND".data := by rw [h2]; decide
    rw [if_neg h1, if_neg hc1, if_neg hc2, if_pos h2]
  · intro h1 h2 h3 h4 h5
    unfold netErrorFor
    rw [if_neg h1, if_neg h2, if_neg h3, if_neg h4, if_neg (by simp [h5])]

/-- C9: the `POST /api/clear-cache` handler empties the `imageHashes` map
and leaves `totalRequests`, `totalCost`, `requestsByKey` and `dailyUsage`
unchanged, answering a success body. -/
theorem clear_cache_frame (st : UsageStats) :
    (handleClearCache st).1.imageHashes = []
    ∧ (handleClearCache st).1.totalRequests = st.totalRequests
    ∧ (handleClearCache st).1.totalCost = st.totalCost
    ∧ (handleClearCache st).1.requestsByKey = st.requestsByKey
    ∧ (handleClearCache st).1.dailyUsage = st.dailyUsage
    ∧ (handleClearCache st).2 = (true, "Cache cleared".data) :=
  ⟨rfl, rfl, rfl, rfl, rfl, rfl⟩

/-- C10: a `POST /api/analyze-image` request with no uploaded file is
answered 400 with body `{"error": "No image file provided"}`, the upstream
API is not called, and the cache and usage statistics are untouched. -/
theorem analyze_image_no_file (now : Nat) (st : UsageStats)
    (fetchResult : FetchOutcome) :
    handleAnalyzeImage now none st fetchResult = ⟨.noFile, st, false⟩
    ∧ responseStatus .noFile = 400
    ∧ responseErrorField .noFile = some "No image file provided".data
    ∧ responseSuccess .noFile = none
    ∧ (handleAnalyzeImage now none st fetchResult).stats = st
    ∧ (handleAnalyzeImage now none st fetchResult).apiCalled = false :=
  ⟨rfl, rfl, rfl, rfl, rfl, rfl⟩

theorem getD_mem_of_lt {α : Type} {l : List α} {n : Nat} {d : α}
    (h : n < l.length) : l.getD n d ∈ l := by
  rw [List.getD_eq_getElem?_getD, List.getElem?_eq_getElem h]
  simp [List.getElem_mem]

/-- Whatever the MD5 hash value, every caption `generateFallbackCaptions`
selects comes from the hardcoded table. -/
theorem generateFallbackCaptions_canned (buf : JBuf) (m : JStr) :
    ∀ c ∈ Part002.generateFallbackCaptions buf m,
      c ∈ Part002.allFallbackCaptions := by
  intro c hc
  unfold Part002.generateFallbackCaptions at hc
  rw [List.mem_map] at hc
  obtain ⟨i, _, rfl⟩ := hc
  set n := parseIntHex ((md5Hex buf).take 8) with hn
  clear hn
  have h6 : n % Part002.fallbackCategories.length < 6 :=
    Nat.mod_lt _ (by simp [Part002.fallbackCategories])
  have htable : ∃ T, Part002.fallbackTable
      (Part002.fallbackCategories.getD (n % Part002.fallbackCategories.length) []) = T
      ∧ T.length = 3 ∧ ∀ x ∈ T, x ∈ Part002.allFallbackCaptions := by
    have : n % Part002.fallbackCategories.length = 0
        ∨ n % Part002.fallbackCategories.length = 1
        ∨ n % Part002.fallbackCategories.length = 2
        ∨ n % Part002.fallbackCategories.length = 3
        ∨ n % Part002.fallbackCategories.length = 4
        ∨ n % Part002.fallbackCategories.length = 5 := by omega
    rcases this with h | h | h | h | h | h <;> rw [h] <;>
      exact ⟨_, rfl, by decide, by intro x hx; simp [Part002.allFallbackCaptions]; tauto⟩
  obtain ⟨T, hT, hTlen, hTmem⟩ := htable
  rw [hT, hTlen]
  exact hTmem _ (getD_mem_of_lt (by rw [hTlen]; exact Nat.mod_lt _ (by omega)))

/-- C1: in the optimized `/api/analyze-image` handler (part_002), when the
upstream reply is ok but no caption can be extracted from it (malformed
model output), the handler still answers HTTP 200 with `success: true` and
the hardcoded canned fallback captions — never an error response. -/
theorem analyze_image_malformed_reply_falls_back
    (now : Nat) (f : UploadedFile) (st : UsageStats) (content : JStr)
    (hmime : allowedTypes.contains f.mimetype = true)
    (hmiss : mapLookup (generateImageHash f.buffer) st.imageHashes = none)
    (hmal : extractCaptions content = []) :
    (handleAnalyzeImage now (some f) st (.ok content)).response
        = .fresh (parseAnalysis content)
            (Part002.generateFallbackCaptions f.buffer f.mimetype)
    ∧ responseStatus
        (handleAnalyzeImage now (some f) st (.ok content)).response = 200
    ∧ responseSuccess
        (handleAnalyzeImage now (some f) st (.ok content)).response = some true
    ∧ ∀ c ∈ Part002.generateFallbackCaptions f.buffer f.mimetype,
        c ∈ Part002.allFallbackCaptions := by
  have hstep : handleAnalyzeImage now (some f) st (.ok content)
      = ⟨.fresh (parseAnalysis content)
          (Part002.generateFallbackCaptions f.buffer f.mimetype),
         { cacheResult (generateImageHash f.buffer)
            ⟨parseAnalysis content,
             Part002.generateFallbackCaptions f.buffer f.mimetype⟩ now st with
           totalRequests :=
            (cacheResult (generateImageHash f.buffer)
              ⟨parseAnalysis content,
               Part002.generateFallbackCaptions f.buffer f.mimetype⟩ now st).totalRequests + 1 },
         true⟩ := by
    have hmem : f.mimetype ∈ allowedTypes := by
      simpa using hmime
    simp [handleAnalyzeImage, hmem, hmiss, hmal]
  rw [hstep]
  exact ⟨rfl, rfl, rfl, generateFallbackCaptions_canned f.buffer f.mimetype⟩

/-- Witness for C1: a JPEG upload with an empty cache and the unparseable
reply `"hello"` is answered with the fresh-success response carrying the
canned fallback captions. -/
theorem analyze_image_malformed_reply_falls_back_witness :
    allowedTypes.contains ("image/jpeg".data) = true
    ∧ extractCaptions "hello".data = []
    ∧ (handleAnalyzeImage 0 (some ⟨"x.jpg".data, "image/jpeg".data, []⟩)
        ⟨0, 0, [], [], []⟩ (.ok "hello".data)).response
      = .fresh (parseAnalysis "hello".data)
          (Part002.generateFallbackCaptions [] "image/jpeg".data)
    ∧ responseStatus (handleAnalyzeImage 0 (some ⟨"x.jpg".data, "image/jpeg".data, []⟩)
        ⟨0, 0, [], [], []⟩ (.ok "hello".data)).response = 200 := by
  refine ⟨by decide, by decide, ?_, ?_⟩
  · exact (analyze_image_malformed_reply_falls_back 0
      ⟨"x.jpg".data, "image/jpeg".data, []⟩ ⟨0, 0, [], [], []⟩ "hello".data
      (by decide) rfl (by decide)).1
  · exact (analyze_image_malformed_reply_falls_back 0
      ⟨"x.jpg".data, "image/jpeg".data, []⟩ ⟨0, 0, [], [], []⟩ "hello".data
      (by decide) rfl (by decide)).2.1

/-- Counterexample for C2: the optimized `/api/analyze-image` handler
(part_002 lines 1552-1564) serves a cache entry stored a full 24 hours
(and in fact any time) earlier — it never checks `timestamp`. Here an
entry stored at time 0 is served at time `24 * 60 * 60 * 1000` with no
fresh analysis and no upstream call. -/
theorem analyze_image_cache_no_expiry_cex :
    (handleAnalyzeImage (24 * 60 * 60 * 1000)
        (some ⟨"x.jpg".data, "image/jpeg".data, []⟩)
        ⟨0, 0, [], [], [(generateImageHash [], ⟨⟨none, []⟩, 0, 1⟩)]⟩
        (.ok "ignored".data)).response
      = .cachedHit ⟨⟨none, []⟩, 0, 1⟩
    ∧ (handleAnalyzeImage (24 * 60 * 60 * 1000)
        (some ⟨"x.jpg".data, "image/jpeg".data, []⟩)
        ⟨0, 0, [], [], [(generateImageHash [], ⟨⟨none, []⟩, 0, 1⟩)]⟩
        (.ok "ignored".data)).apiCalled = false
    ∧ 24 * 60 * 60 * 1000 - (0 : Nat) ≥ 24 * 60 * 60 * 1000 := by
  have hmem : ("image/jpeg".data : JStr) ∈ allowedTypes := by decide
  refine ⟨?_, ?_, by omega⟩ <;>
    simp [handleAnalyzeImage, hmem, mapLookup]

/-- C2 as amended: in server.js `analyzeImage` (lines 319-327) the cached
result is served exactly when the entry is younger than 24 hours, and a
fresh analysis is computed when the entry is absent or 24 hours or older;
the optimized part_002 handler, by contrast, serves any cached entry
regardless of age (see the counterexample). -/
theorem analyze_image_cache_expiry_server_js
    (now : Nat) (buf : JBuf) (st : UsageStats) :
    (∀ entry, mapLookup (generateImageHash buf) st.imageHashes = some entry →
      (now - entry.timestamp < ServerJs.ONE_DAY_MS →
        ServerJs.analyzeImageCacheCheck now buf st = .useCached entry.result)
      ∧ (ServerJs.ONE_DAY_MS ≤ now - entry.timestamp →
        ServerJs.analyzeImageCacheCheck now buf st = .computeFresh))
    ∧ (mapLookup (generateImageHash buf) st.imageHashes = none →
      ServerJs.analyzeImageCacheCheck now buf st = .computeFresh) := by
  constructor
  · intro entry hfound
    constructor
    · intro hfresh
      simp [ServerJs.analyzeImageCacheCheck, hfound, hfresh]
    · intro hstale
      simp [ServerJs.analyzeImageCacheCheck, hfound]
      omega
  · intro hnone
    simp [ServerJs.analyzeImageCacheCheck, hnone]

/-- Witness for the amended C2: a concrete entry stored at time 0 is not
served at exactly 24 hours, and is served one millisecond earlier. -/
theorem analyze_image_cache_expiry_server_js_witness :
    ServerJs.analyzeImageCacheCheck (24 * 60 * 60 * 1000) []
        ⟨0, 0, [], [], [(generateImageHash [], ⟨⟨none, []⟩, 0, 1⟩)]⟩
      = .computeFresh
    ∧ ServerJs.analyzeImageCacheCheck (24 * 60 * 60 * 1000 - 1) []
        ⟨0, 0, [], [], [(generateImageHash [], ⟨⟨none, []⟩, 0, 1⟩)]⟩
      = .useCached ⟨none, []⟩ := by
  constructor
  · exact ((analyze_image_cache_expiry_server_js (24 * 60 * 60 * 1000) []
      ⟨0, 0, [], [], [(generateImageHash [], ⟨⟨none, []⟩, 0, 1⟩)]⟩).1
      ⟨⟨none, []⟩, 0, 1⟩ (by simp [mapLookup])).2 (by decide)
  · exact ((analyze_image_cache_expiry_server_js (24 * 60 * 60 * 1000 - 1) []
      ⟨0, 0, [], [], [(generateImageHash [], ⟨⟨none, []⟩, 0, 1⟩)]⟩).1
      ⟨⟨none, []⟩, 0, 1⟩ (by simp [mapLookup])).1 (by decide)

theorem validateCaptionsLoop_sublist (l : List Caption) :
    (ServerJs.validateCaptionsLoop l).Sublist l := by
  induction l with
  | nil => simp [ServerJs.validateCaptionsLoop]
  | cons caption rest ih =>
    unfold ServerJs.validateCaptionsLoop
    split
    · exact ih.cons caption
    · split
      · exact ih.cons caption
      · split
        · exact ih.cons caption
        · exact ih.cons₂ caption

theorem validateCaptionsLoop_mem {l : List Caption} {c : Caption}
    (h : c ∈ ServerJs.validateCaptionsLoop l) :
    c.chinese ≠ [] ∧ c.pinyin ≠ [] ∧ c.english ≠ [] ∧
    c.relevance ≠ "low".data := by
  induction l with
  | nil => simp [ServerJs.validateCaptionsLoop] at h
  | cons caption rest ih =>
    unfold ServerJs.validateCaptionsLoop at h
    split at h
    · exact ih h
    · split at h
      · exact ih h
      · split at h
        · exact ih h
        · rcases List.mem_cons.mp h with rfl | h
          · rename_i hfields hlow _
            push_neg at hfields
            exact ⟨hfields.1, hfields.2.1, hfields.2.2, hlow⟩
          · exact ih h

/-- Counterexample for C5: part_002's `validateCaptions` returns a caption
whose `relevance` is `'low'` — its relevance filter only fires for
captions shorter than three characters, and the four-character minimum
admits none of those. -/
theorem validate_captions_low_relevance_cex :
    (Part002.validateCaptions
        [⟨"我喜欢这个。".data, "wǒ xǐ huān zhè gè".data,
          "I like this.".data, "low".data⟩]).map Caption.relevance
      = ["low".data] := by decide

/-- C5 as amended: the claim holds of the server.js (and part_001)
`validateCaptions`: at most three captions are returned, every returned
caption has non-empty `chinese`, `pinyin` and `english` and a `relevance`
other than `'low'`, and the survivors keep their input order (they form a
sublist of the input). The part_002 variant keeps the three-caption bound
and order but can return `'low'`-relevance captions (see the
counterexample). -/
theorem validate_captions_server_js_spec (captions : List Caption) :
    (ServerJs.validateCaptions captions).length ≤ 3
    ∧ (∀ c ∈ ServerJs.validateCaptions captions,
        c.chinese ≠ [] ∧ c.pinyin ≠ [] ∧ c.english ≠ [] ∧
        c.relevance ≠ "low".data)
    ∧ (ServerJs.validateCaptions captions).Sublist captions := by
  refine ⟨?_, ?_, ?_⟩
  · simp [ServerJs.validateCaptions]
  · intro c hc
    have : c ∈ ServerJs.validateCaptionsLoop captions :=
      (List.take_sublist 3 _).mem hc
    exact validateCaptionsLoop_mem this
  · exact (List.take_sublist 3 _).trans (validateCaptionsLoop_sublist captions)

/-- Witness for the amended C5: a concrete well-formed caption survives
validation with its fields non-empty and relevance kept away from
`'low'`. -/
theorem validate_captions_server_js_spec_witness :
    (ServerJs.validateCaptions
        [⟨"猫很可爱。".data, "māo hěn kě ài".data,
          "The cat is cute.".data, "high".data⟩]).length ≤ 3
    ∧ (⟨"猫很可爱。".data, "māo hěn kě ài".data,
          "The cat is cute.".data, "high".data⟩ : Caption).relevance
        ≠ "low".data := by
  constructor
  · exact (validate_captions_server_js_spec _).1
  · exact ((validate_captions_server_js_spec
      [⟨"猫很可爱。".data, "māo hěn kě ài".data,
        "The cat is cute.".data, "high".data⟩]).2.1 _ (by decide)).2.2.2

theorem firstOccIdx_single_none {c : Char} {s : JStr} (h : c ∉ s) :
    firstOccIdx [c] s = none := by
  induction s with
  | nil => rfl
  | cons d rest ih =>
    unfold firstOccIdx
    have hdc : ¬ [c].isPrefixOf (d :: rest) := by
      simp [List.isPrefixOf]
      intro hcd
      exact absurd (hcd ▸ List.mem_cons_self d rest) h
    rw [if_neg hdc, ih (fun hm => h (List.mem_cons_of_mem d hm))]
    rfl

theorem firstOccIdx_single_append {c : Char} {t r : JStr} (h : c ∉ t) :
    firstOccIdx [c] (t ++ c :: r) = some t.length := by
  induction t with
  | nil => simp [firstOccIdx, List.isPrefixOf]
  | cons d t' ih =>
    have hdc : d ≠ c := fun hdc => h (hdc ▸ List.mem_cons_self d t')
    have hrec := ih (fun hm => h (List.mem_cons_of_mem d hm))
    have hpre : [c].isPrefixOf (d :: (t' ++ c :: r)) = false := by
      simp [List.isPrefixOf]
      exact fun hcd => absurd hcd.symm hdc
    simp only [List.cons_append, firstOccIdx, List.append_eq, hpre,
      Bool.false_eq_true, if_false, hrec, Option.map_some', List.length_cons]

/-- Splitting on a separator character recovers exactly the joined tokens,
provided there is at least one token and no token contains the
separator. -/
theorem jsSplit_joinSepChar (c : Char) :
    ∀ tokens : List JStr, tokens ≠ [] → (∀ t ∈ tokens, c ∉ t) →
      jsSplit [c] (Part002.joinSepChar c tokens) = tokens := by
  intro tokens
  induction tokens with
  | nil => intro h; exact absurd rfl h
  | cons t ts ih =>
    intro _ hc
    match ts with
    | [] =>
      have : firstOccIdx [c] t = none :=
        firstOccIdx_single_none (hc t (List.mem_cons_self t []))
      simp [Part002.joinSepChar, jsSplit_nil this]
    | u :: ts' =>
      have hct : c ∉ t := hc t (List.mem_cons_self t _)
      have hocc : firstOccIdx [c]
            (t ++ c :: Part002.joinSepChar c (u :: ts'))
          = some t.length := firstOccIdx_single_append hct
      have hstep := @jsSplit_cons [c] _ _ (by simp) hocc
      have htake : (t ++ c :: Part002.joinSepChar c (u :: ts')).take t.length
          = t := List.take_left' rfl
      have hdrop : (t ++ c :: Part002.joinSepChar c (u :: ts')).drop
            (t.length + [c].length)
          = Part002.joinSepChar c (u :: ts') := by
        rw [show t ++ c :: Part002.joinSepChar c (u :: ts')
            = (t ++ [c]) ++ Part002.joinSepChar c (u :: ts') by simp]
        exact List.drop_left' (by simp)
      rw [show Part002.joinSepChar c (t :: u :: ts')
          = t ++ c :: Part002.joinSepChar c (u :: ts') from rfl,
        hstep, htake, hdrop,
        ih (by simp) (fun x hx => hc x (List.mem_cons_of_mem t hx))]

theorem pinyinLookup_mem {c : Char} {m : List (Char × JStr)} {v : JStr}
    (h : Part002.pinyinLookup c m = some v) : (c, v) ∈ m := by
  induction m with
  | nil => simp [Part002.pinyinLookup] at h
  | cons p rest ih =>
    obtain ⟨k, w⟩ := p
    unfold Part002.pinyinLookup at h
    split at h
    · rename_i hck
      injection h with h
      subst h
      subst hck
      exact List.mem_cons_self _ _
    · exact List.mem_cons_of_mem _ (ih h)

set_option maxRecDepth 4000 in
/-- No syllable in the pinyin table contains a space. -/
theorem pinyinMap_values_space_free :
    ∀ p ∈ Part002.pinyinMap, ' ' ∉ p.2 := by decide

/-- Counterexample for C7: on the input `"你 好"` (three characters, one
of them a space) the output of `generatePinyinFallback`, split on single
spaces, has four components, not three — the unmapped space character
joins into a run of three spaces. The empty input likewise gives one
component for zero characters. -/
theorem generate_pinyin_fallback_cex :
    (jsSplit [' '] (Part002.generatePinyinFallback "你 好".data)).length = 4
    ∧ ("你 好".data : JStr).length = 3
    ∧ (jsSplit [' '] (Part002.generatePinyinFallback [])).length = 1 := by
  refine ⟨?_, by decide, by decide⟩
  decide

/-- C7 as amended: `generatePinyinFallback` maps each character through the
fixed table (unchanged when absent) and joins with single spaces; its
output split on single spaces has exactly one component per input
character — the per-character table images themselves — provided the
input is non-empty and none of its characters is a space. -/
theorem generate_pinyin_fallback_spec (s : JStr)
    (hne : s ≠ []) (hsp : ∀ c ∈ s, c ≠ ' ') :
    jsSplit [' '] (Part002.generatePinyinFallback s)
      = s.map (fun c => (Part002.pinyinLookup c Part002.pinyinMap).getD [c])
    ∧ (jsSplit [' '] (Part002.generatePinyinFallback s)).length = s.length := by
  have hmain : jsSplit [' '] (Part002.generatePinyinFallback s)
      = s.map (fun c => (Part002.pinyinLookup c Part002.pinyinMap).getD [c]) := by
    unfold Part002.generatePinyinFallback
    apply jsSplit_joinSepChar
    · simpa using hne
    · intro t ht
      rw [List.mem_map] at ht
      obtain ⟨ch, hch, rfl⟩ := ht
      match hl : Part002.pinyinLookup ch Part002.pinyinMap with
      | some v =>
        simpa [hl] using pinyinMap_values_space_free _ (pinyinLookup_mem hl)
      | none =>
        simpa [hl] using (hsp ch hch).symm
  exact ⟨hmain, by rw [hmain]; simp⟩

/-- Witness for the amended C7: a three-character space-free input yields
exactly its three per-character syllables. -/
theorem generate_pinyin_fallback_spec_witness :
    ("你好啊".data : JStr) ≠ []
    ∧ (jsSplit [' '] (Part002.generatePinyinFallback "你好啊".data)).length
        = ("你好啊".data : JStr).length := by
  refine ⟨by decide, ?_⟩
  exact (generate_pinyin_fallback_spec "你好啊".data (by decide)
    (by decide)).2

theorem bytesToHex_length (l : List Nat) :
    (bytesToHex l).length = 2 * l.length := by
  induction l with
  | nil => rfl
  | cons b rest ih =>
    simp [bytesToHex, byteToHex, ih]
    omega

theorem sha256DigestBytes_length (st : Sha256St) :
    (sha256DigestBytes st).length = 32 := by
  simp [sha256DigestBytes, be32]

theorem hexDigit_mem (n : Nat) : hexDigit n ∈ hexAlphabet := by
  unfold hexDigit
  rcases h : hexAlphabet[n]? with _ | a
  · rw [List.getD_eq_getElem?_getD, h]
    decide
  · rw [List.getD_eq_getElem?_getD, h]
    obtain ⟨hn, rfl⟩ := List.getElem?_eq_some.mp h
    simp [List.getElem_mem hn]

theorem bytesToHex_mem {l : List Nat} {c : Char} (h : c ∈ bytesToHex l) :
    c ∈ hexAlphabet := by
  induction l with
  | nil => simp [bytesToHex] at h
  | cons b rest ih =>
    unfold bytesToHex byteToHex at h
    rcases List.mem_append.mp h with h' | h'
    · rcases List.mem_cons.mp h' with rfl | h''
      · exact hexDigit_mem _
      · rcases List.mem_cons.mp h'' with rfl | h3
        · exact hexDigit_mem _
        · simp at h3
    · exact ih h'

/-- C8: `generateImageHash` is deterministic — equal byte buffers get equal
hashes — and its output is always a 64-character string over the lowercase
hexadecimal alphabet (the hex SHA-256 digest), so identical uploads always
map to the same cache key. -/
theorem generate_image_hash_deterministic (b1 b2 : JBuf) (h : b1 = b2) :
    generateImageHash b1 = generateImageHash b2
    ∧ (generateImageHash b1).length = 64
    ∧ ∀ c ∈ generateImageHash b1, c ∈ hexAlphabet := by
  refine ⟨by rw [h], ?_, fun c hc => bytesToHex_mem hc⟩
  unfold generateImageHash sha256Bytes
  rw [bytesToHex_length, sha256DigestBytes_length]

/-- Witness for C8: the hash of the empty buffer equals itself and is 64
lowercase hex characters. -/
theorem generate_image_hash_deterministic_witness :
    generateImageHash [] = generateImageHash []
    ∧ (generateImageHash []).length = 64 :=
  ⟨(generate_image_hash_deterministic [] [] rfl).1,
   (generate_image_hash_deterministic [] [] rfl).2.1⟩

theorem jsIndexOfChar_drop {c : Char} {s : JStr} {i : Nat}
    (h : jsIndexOfChar c s = some i) : ∃ r, s.drop i = c :: r := by
  induction s generalizing i with
  | nil => simp [jsIndexOfChar] at h
  | cons d rest ih =>
    unfold jsIndexOfChar at h
    split at h
    · rename_i hdc
      cases h
      exact ⟨rest, by simp [hdc]⟩
    · match hrec : jsIndexOfChar c rest with
      | none => rw [hrec] at h; simp at h
      | some i' =>
        rw [hrec] at h
        simp at h
        subst h
        obtain ⟨r, hr⟩ := ih hrec
        exact ⟨r, by simpa using hr⟩

theorem jsLastIndexOfChar_spec {c : Char} {s : JStr} {j : Nat}
    (h : jsLastIndexOfChar c s = some j) : j < s.length ∧ s[j]? = some c := by
  unfold jsLastIndexOfChar at h
  match hk : jsIndexOfChar c s.reverse with
  | none => rw [hk] at h; simp at h
  | some k =>
    rw [hk] at h
    simp at h
    obtain ⟨r, hr⟩ := jsIndexOfChar_drop hk
    have hklt : k < s.length := by
      have hlen := congrArg List.length hr
      simp [List.length_drop] at hlen
      omega
    have hrev : s.reverse[k]? = some c := by
      have h0 : (s.reverse.drop k)[0]? = some c := by rw [hr]; simp
      rwa [List.getElem?_drop, Nat.add_zero] at h0
    rw [List.getElem?_reverse hklt] at hrev
    exact ⟨by omega, by rw [← h]; exact hrev⟩

/-- Counterexample for C6: when `'```json'` occurs twice and a backtick run
overlaps the second occurrence, the cleanup does not cut at the first
`'```'` after the first `'```json'`. On
`"```jsonX````jsonY```Z"` the split-based code keeps the stray backtick
(producing `"X`" + "`"`, i.e. `X` followed by a backtick) while the text
strictly between the first `'```json'` and the next `'```'`, trimmed, is
just `"X"`. -/
theorem clean_response_cleanup_cex :
    ServerJs.stripFences "```jsonX````jsonY```Z".data
      ≠ jsTrim (upToFirst ServerJs.ticks
          (afterFirst ServerJs.fence "```jsonX````jsonY```Z".data)) := by
  decide

/-- C6 as amended: (a) when the reply text contains `'```json'` exactly
once, the fence-stripping step returns the trimmed text strictly between
that `'```json'` and the next `'```'` (to the end of the text when none
follows); with a second `'```json'` occurrence the cut can move, as the
counterexample shows; (b) unconditionally, when the first `'{'` of the
cleaned text sits strictly before its last `'}'`, the string handed to
`JSON.parse` is exactly the span from that `'{'` to that `'}'` — it begins
with the `'{'`, ends with the `'}'`, and every character outside them is
discarded. -/
theorem clean_response_cleanup_spec :
    (∀ s i, firstOccIdx ServerJs.fence s = some i →
      firstOccIdx ServerJs.fence (afterFirst ServerJs.fence s) = none →
      ServerJs.stripFences s
        = jsTrim (upToFirst ServerJs.ticks (afterFirst ServerJs.fence s)))
    ∧ (∀ t i j, jsIndexOfChar '{' t = some i →
        jsLastIndexOfChar '}' t = some j → i < j →
        ServerJs.extractBraces t = jsSubstring i (j + 1) t
        ∧ (ServerJs.extractBraces t).head? = some '{'
        ∧ (ServerJs.extractBraces t).length = j + 1 - i
        ∧ (ServerJs.extractBraces t).getLast? = some '}') := by
  constructor
  · intro s i h1 h2
    have hfence : (ServerJs.fence : JStr) ≠ [] := by decide
    have hafter : afterFirst ServerJs.fence s = s.drop (i + ServerJs.fence.length) := by
      unfold afterFirst
      rw [h1]
    rw [hafter] at h2 ⊢
    have hcontains : jsContains s ServerJs.fence = true := by
      unfold jsContains
      rw [h1]
      rfl
    unfold ServerJs.stripFences
    rw [if_pos hcontains]
    rw [jsSplit_cons hfence h1, jsSplit_nil h2]
    show jsTrim ((jsSplit ServerJs.ticks
      (s.drop (i + ServerJs.fence.length))).getD 0 []) = _
    match hocc : firstOccIdx ServerJs.ticks (s.drop (i + ServerJs.fence.length)) with
    | some m =>
      rw [jsSplit_cons (by decide) hocc]
      unfold upToFirst
      rw [hocc]
      rfl
    | none =>
      rw [jsSplit_nil hocc]
      unfold upToFirst
      rw [hocc]
      rfl
  · intro t i j hi hj hij
    have hmain : ServerJs.extractBraces t = jsSubstring i (j + 1) t := by
      unfold ServerJs.extractBraces
      rw [hi, hj]
      simp [hij]
    obtain ⟨r, hr⟩ := jsIndexOfChar_drop hi
    obtain ⟨hjlt, hjget⟩ := jsLastIndexOfChar_spec hj
    have hlen : (jsSubstring i (j + 1) t).length = j + 1 - i := by
      unfold jsSubstring
      rw [List.length_take, List.length_drop]
      omega
    have hhead : (jsSubstring i (j + 1) t).head? = some '{' := by
      unfold jsSubstring
      rw [hr, show j + 1 - i = (j - i) + 1 by omega, List.take_succ_cons]
      rfl
    have hget : (jsSubstring i (j + 1) t)[j - i]? = some '}' := by
      unfold jsSubstring
      rw [List.getElem?_take_of_lt (by omega), List.getElem?_drop,
        show i + (j - i) = j by omega]
      exact hjget
    refine ⟨hmain, hmain ▸ hhead, hmain ▸ hlen, hmain ▸ ?_⟩
    rw [List.getLast?_eq_getElem?, hlen, show j + 1 - i - 1 = j - i by omega]
    exact hget

/-- Witness for the amended C6: a concrete fenced reply is cut between the
fences, and a concrete cleaned text is reduced to its brace span. -/
theorem clean_response_cleanup_spec_witness :
    ServerJs.stripFences "pre ```json {ok} ``` post".data
      = jsTrim (upToFirst ServerJs.ticks
          (afterFirst ServerJs.fence "pre ```json {ok} ``` post".data))
    ∧ ServerJs.extractBraces "xx{yy}zz".data
      = jsSubstring 2 6 "xx{yy}zz".data := by
  constructor
  · exact clean_response_cleanup_spec.1 "pre ```json {ok} ``` post".data
      4 (by decide) (by decide)
  · exact (clean_response_cleanup_spec.2 "xx{yy}zz".data 2 5 (by decide)
      (by decide) (by omega)).1

/-- Witness for C4: an `AbortError` is recorded as the timeout error, and a
500 response as the generic `API request failed` message. -/
theorem api_error_categories_witness :
    netErrorFor ⟨"AbortError".data, none, []⟩
      = mkError "Request timeout - API request took too long".data
    ∧ httpErrorFor 500 "Internal Server Error".data []
      = mkError ("API request failed: ".data ++ (Nat.repr 500).data
          ++ " ".data ++ "Internal Server Error".data ++ " - ".data ++ []) := by
  constructor
  · exact (api_error_categories [] [] ⟨"AbortError".data, none, []⟩).2.2.2.2.1 rfl
  · exact (api_error_categories "Internal Server Error".data []
      ⟨"Error".data, none, []⟩).2.2.2.1 500 (by decide) (by decide) (by decide)
